import Mathlib

/-!
# User routes of pixiu: bind, delegate once, write one envelope

Shallow embedding of `api/server/router/user/user_routes.go`.

Every handler of that file is a straight-line sequence of effects on the
request context `c`: calls of the gin binder, at most one call of the User
Service, and one call of the envelope writer.  The embedding threads a
`World` through each handler: the state of the User Service and the log of
the effects performed so far, in order.

Collaborators that are not part of that file are parameters:

* the gin binder (`c.ShouldBindUri`, `c.ShouldBindJSON`) is `Binder`;
* the User Service (`u.c.User()`) is `UserInterface`, a state machine;
* the error type is any type `E` with an `Error` method (`GoError`).

The envelope type and the writer (`httputils.Response`, `NewResponse`,
`SetSuccess`, `SetFailed`) live in another package of the repository; they
are modelled from the specification and marked as such.
-/

namespace Pixiu

/-! ## Data model -/

/-- Go's `error` interface: a value with an `Error() string` method. -/
class GoError (E : Type) where
  /-- The message of the error. -/
  Error : E → String

/-- The struct `IdMeta` of the source: one field `UserId int64`, tagged
`uri:"userId" binding:"required"`.  The handlers never compute with the
identifier, so it is kept as an integer. -/
structure IdMeta where
  UserId : Int
deriving DecidableEq, Repr

/-- What can be stored in the field `Result` (a Go `interface{}`) by the
handlers of this file: the value returned by `Get`, by `List` or by
`Login`. -/
inductive Payload (U T : Type) where
  | user (u : U)
  | users (l : List U)
  | login (t : T)
deriving DecidableEq, Repr

/-- The success/failure indicator of an envelope; `unset` is the state of an
envelope no writer has touched yet. -/
inductive Indicator where
  | unset
  | success
  | failure
deriving DecidableEq, Repr

/-- Modelled from the spec: the struct `httputils.Response` is declared
outside this file.  The spec gives it "a success/failure indicator, an
optional error message, and an optional result payload"; the source assigns
its field `Result`.  `Result = none` is Go's `nil`. -/
structure Response (U T : Type) where
  Indicator : Indicator
  Message : Option String
  Result : Option (Payload U T)
deriving DecidableEq, Repr

/-- Modelled from the spec: `httputils.NewResponse` is declared outside this
file.  The envelope is "created fresh per request": no indicator, no
message, no payload. -/
def NewResponse {U T : Type} : Response U T :=
  { Indicator := Indicator.unset, Message := none, Result := none }

/-! ## Collaborators -/

/-- The gin binder, as seen from the handlers: each call either fills the
target struct or returns an error. -/
structure Binder (C E U : Type) where
  ShouldBindUri : C → Except E IdMeta
  ShouldBindJSON : C → Except E U

/-- The User Service `u.c.User()`.  Every method receives the request
context and the current state of the service and returns the new state.
`Create`, `Update` and `Delete` return an error or `nil`; `Get`, `List` and
`Login` return a value or `nil` together with an error or `nil`, and nothing
relates the two. -/
structure UserInterface (S C E U T : Type) where
  Create : S → C → U → Option E × S
  Update : S → C → Int → U → Option E × S
  Delete : S → C → Int → Option E × S
  Get : S → C → Int → (Option U × Option E) × S
  List : S → C → (Option (List U) × Option E) × S
  Login : S → C → U → (Option T × Option E) × S

/-- One effect performed by a handler.  Binder calls carry what the binder
returned, Service calls carry their arguments, writer calls carry the
envelope and the error handed to the writer. -/
inductive Event (E U T : Type) where
  | ShouldBindUri (res : Except E IdMeta)
  | ShouldBindJSON (res : Except E U)
  | Create (user : U)
  | Update (userId : Int) (user : U)
  | Delete (userId : Int)
  | Get (userId : Int)
  | List
  | Login (user : U)
  | SetFailed (r : Response U T) (err : E)
  | SetSuccess (r : Response U T)

/-- The state threaded through a handler: the state of the User Service,
the effects performed so far (oldest first) and the envelopes written to the
client so far. -/
structure World (S E U T : Type) where
  svc : S
  log : List (Event E U T)
  written : List (Response U T)

/-- The world at the start of a request. -/
def World.start {S E U T : Type} (s : S) : World S E U T :=
  { svc := s, log := [], written := [] }

/-- Record an effect that leaves the User Service alone. -/
def World.record {S E U T : Type} (w : World S E U T) (e : Event E U T) :
    World S E U T :=
  { w with log := w.log ++ [e] }

/-- Record a call of the User Service that left it in state `s`. -/
def World.call {S E U T : Type} (w : World S E U T) (e : Event E U T) (s : S) :
    World S E U T :=
  { w with svc := s, log := w.log ++ [e] }

/-! ## The envelope writer -/

/-- Modelled from the spec: `httputils.SetSuccess` is declared outside this
file.  "On success: sets a success indicator and, if the operation produced
a payload, attaches it; no error message."  The call itself is logged with
the envelope it received. -/
def SetSuccess {S E U T : Type} (w : World S E U T) (r : Response U T) :
    World S E U T :=
  { w with
    log := w.log ++ [Event.SetSuccess r]
    written := w.written ++
      [{ Indicator := Indicator.success, Message := none, Result := r.Result }] }

/-- Modelled from the spec: `httputils.SetFailed` is declared outside this
file.  "On failure: sets a failure indicator, attaches a human-readable
message derived from the error, omits any payload."  The call itself is
logged with the envelope and the error it received. -/
def SetFailed {S E U T : Type} [GoError E] (w : World S E U T)
    (r : Response U T) (err : E) : World S E U T :=
  { w with
    log := w.log ++ [Event.SetFailed r err]
    written := w.written ++
      [{ Indicator := Indicator.failure, Message := some (GoError.Error err),
         Result := none }] }

/-! ## The handlers -/

section Handlers

variable {S C E U T : Type} [GoError E]

/-- The handler `createUser`: bind the body, `Create`, write. -/
def createUser (g : Binder C E U) (u : UserInterface S C E U T) (c : C)
    (w : World S E U T) : World S E U T :=
  let r : Response U T := NewResponse
  let w := w.record (Event.ShouldBindJSON (g.ShouldBindJSON c))
  match g.ShouldBindJSON c with
  | Except.error err => SetFailed w r err
  | Except.ok user =>
    let out := u.Create w.svc c user
    let w := w.call (Event.Create user) out.2
    match out.1 with
    | some err => SetFailed w r err
    | none => SetSuccess w r

/-- The handler `updateUser`: bind the path, bind the body, `Update`,
write. -/
def updateUser (g : Binder C E U) (u : UserInterface S C E U T) (c : C)
    (w : World S E U T) : World S E U T :=
  let r : Response U T := NewResponse
  let w := w.record (Event.ShouldBindUri (g.ShouldBindUri c))
  match g.ShouldBindUri c with
  | Except.error err => SetFailed w r err
  | Except.ok idMeta =>
    let w := w.record (Event.ShouldBindJSON (g.ShouldBindJSON c))
    match g.ShouldBindJSON c with
    | Except.error err => SetFailed w r err
    | Except.ok user =>
      let out := u.Update w.svc c idMeta.UserId user
      let w := w.call (Event.Update idMeta.UserId user) out.2
      match out.1 with
      | some err => SetFailed w r err
      | none => SetSuccess w r

/-- The handler `deleteUser`: bind the path, `Delete`, write. -/
def deleteUser (g : Binder C E U) (u : UserInterface S C E U T) (c : C)
    (w : World S E U T) : World S E U T :=
  let r : Response U T := NewResponse
  let w := w.record (Event.ShouldBindUri (g.ShouldBindUri c))
  match g.ShouldBindUri c with
  | Except.error err => SetFailed w r err
  | Except.ok idMeta =>
    let out := u.Delete w.svc c idMeta.UserId
    let w := w.call (Event.Delete idMeta.UserId) out.2
    match out.1 with
    | some err => SetFailed w r err
    | none => SetSuccess w r

/-- The handler `getUser`: bind the path, store what `Get` returned in
`r.Result`, then test the error and write. -/
def getUser (g : Binder C E U) (u : UserInterface S C E U T) (c : C)
    (w : World S E U T) : World S E U T :=
  let r : Response U T := NewResponse
  let w := w.record (Event.ShouldBindUri (g.ShouldBindUri c))
  match g.ShouldBindUri c with
  | Except.error err => SetFailed w r err
  | Except.ok idMeta =>
    let out := u.Get w.svc c idMeta.UserId
    let w := w.call (Event.Get idMeta.UserId) out.2
    let r := { r with Result := out.1.1.map Payload.user }
    match out.1.2 with
    | some err => SetFailed w r err
    | none => SetSuccess w r

/-- The handler `listUsers`: store what `List` returned in `r.Result`, then
test the error and write. -/
def listUsers (_g : Binder C E U) (u : UserInterface S C E U T) (c : C)
    (w : World S E U T) : World S E U T :=
  let r : Response U T := NewResponse
  let out := u.List w.svc c
  let w := w.call Event.List out.2
  let r := { r with Result := out.1.1.map Payload.users }
  match out.1.2 with
  | some err => SetFailed w r err
  | none => SetSuccess w r

/-- The handler `login`: bind the body, store what `Login` returned in
`r.Result`, then test the error and write. -/
def login (g : Binder C E U) (u : UserInterface S C E U T) (c : C)
    (w : World S E U T) : World S E U T :=
  let r : Response U T := NewResponse
  let w := w.record (Event.ShouldBindJSON (g.ShouldBindJSON c))
  match g.ShouldBindJSON c with
  | Except.error err => SetFailed w r err
  | Except.ok user =>
    let out := u.Login w.svc c user
    let w := w.call (Event.Login user) out.2
    let r := { r with Result := out.1.1.map Payload.login }
    match out.1.2 with
    | some err => SetFailed w r err
    | none => SetSuccess w r

/-- The handler `logout`: write success. -/
def logout (_g : Binder C E U) (_u : UserInterface S C E U T) (_c : C)
    (w : World S E U T) : World S E U T :=
  let r : Response U T := NewResponse
  SetSuccess w r

/-- The seven handlers of the file, to quantify over them. -/
inductive Handler where
  | createUser
  | updateUser
  | deleteUser
  | getUser
  | listUsers
  | login
  | logout
deriving DecidableEq, Repr

/-- The source function a handler name stands for. -/
def Handler.handler (h : Handler) :
    Binder C E U → UserInterface S C E U T → C → World S E U T → World S E U T :=
  match h with
  | Handler.createUser => Pixiu.createUser
  | Handler.updateUser => Pixiu.updateUser
  | Handler.deleteUser => Pixiu.deleteUser
  | Handler.getUser => Pixiu.getUser
  | Handler.listUsers => Pixiu.listUsers
  | Handler.login => Pixiu.login
  | Handler.logout => Pixiu.logout

/-- One request: handler `h` runs on context `c` with the User Service in
state `s`. -/
def run (h : Handler) (g : Binder C E U) (u : UserInterface S C E U T) (c : C)
    (s : S) : World S E U T :=
  h.handler g u c (World.start s)

end Handlers

/-! ## Reading a log -/

/-- The event is a call of the envelope writer. -/
def Event.isWrite {E U T : Type} : Event E U T → Bool
  | Event.SetFailed _ _ => true
  | Event.SetSuccess _ => true
  | _ => false

/-- The event is a call of the User Service. -/
def Event.isService {E U T : Type} : Event E U T → Bool
  | Event.Create _ => true
  | Event.Update _ _ => true
  | Event.Delete _ => true
  | Event.Get _ => true
  | Event.List => true
  | Event.Login _ => true
  | _ => false

/-- The event is a call of the binder. -/
def Event.isBind {E U T : Type} : Event E U T → Bool
  | Event.ShouldBindUri _ => true
  | Event.ShouldBindJSON _ => true
  | _ => false

/-- The calls of the envelope writer in a log, in order. -/
def writes {E U T : Type} (log : List (Event E U T)) : List (Event E U T) :=
  log.filter Event.isWrite

/-- The calls of the User Service in a log, in order. -/
def delegations {E U T : Type} (log : List (Event E U T)) : List (Event E U T) :=
  log.filter Event.isService

/-! ## Test doubles for the examples -/

instance : GoError String where
  Error := fun e => e

/-- A binder that answers every request with the two given outcomes. -/
def stubBinder (uri : Except String IdMeta) (body : Except String String) :
    Binder Unit String String :=
  { ShouldBindUri := fun _ => uri, ShouldBindJSON := fun _ => body }

/-- A User Service whose state counts the calls it received and which
answers every call with the given error and values. -/
def stubService (err : Option String) (usr : Option String)
    (all : Option (List String)) (tok : Option String) :
    UserInterface Nat Unit String String String :=
  { Create := fun n _ _ => (err, n + 1)
    Update := fun n _ _ _ => (err, n + 1)
    Delete := fun n _ _ => (err, n + 1)
    Get := fun n _ _ => ((usr, err), n + 1)
    List := fun n _ => ((all, err), n + 1)
    Login := fun n _ _ => ((tok, err), n + 1) }

/-! ## Theorems -/

section Theorems

variable {S C E U T : Type} [GoError E]

/-- C2: every handler, on every outcome of the binder and of the User
Service, calls the envelope writer exactly once, as its last action: the log
of the request has exactly one call of `SetSuccess` or `SetFailed`, that call
is the last effect of the log, and exactly one envelope is written. -/
theorem one_envelope_last (h : Handler) (g : Binder C E U)
    (u : UserInterface S C E U T) (c : C) (s : S) :
    ∃ ev,
      writes (run h g u c s).log = [ev] ∧
      (run h g u c s).log.getLast? = some ev ∧
      (run h g u c s).written.length = 1 := by
  cases h <;>
    simp only [run, Handler.handler, createUser, updateUser, deleteUser, getUser,
      listUsers, login, logout, World.record, World.call, World.start] <;>
    (repeat' split) <;>
    simp [SetFailed, SetSuccess, Event.isWrite, writes]

/-- C1, as stated, fails: `getUser` stores what `Get` returned in `r.Result`
before it tests the error, so when `Get` returns a user together with an
error, the envelope passed to `SetFailed` carries that user. -/
theorem getUser_failure_carries_payload :
    ¬ (∀ (r : Response String String) (err : String),
        Event.SetFailed r err ∈
          (run Handler.getUser
            (stubBinder (Except.ok { UserId := 42 }) (Except.error "no body"))
            (stubService (some "boom") (some "alice") none none) () 0).log →
        r.Result = none) := by
  intro hall
  have hmem : Event.SetFailed
      ({ Indicator := Indicator.unset, Message := none,
         Result := some (Payload.user "alice") } : Response String String) "boom" ∈
      (run Handler.getUser
        (stubBinder (Except.ok { UserId := 42 }) (Except.error "no body"))
        (stubService (some "boom") (some "alice") none none) () 0).log := by
    simp [run, Handler.handler, getUser, stubBinder, stubService, World.record,
      World.call, World.start, SetFailed, NewResponse]
  have hnone := hall _ _ hmem
  simp at hnone

/-- C1, amended: for every handler and every outcome of the binder and of
the User Service, exactly one envelope is handed to exactly one of the two
writers, and exactly one envelope is written.  Either the writer call is
`SetSuccess` and the envelope written has the success indicator, no message
and the payload of the envelope handed over (possibly none); or the call is
`SetFailed` and the envelope written has the failure indicator, the message
of the error and no payload.  The envelope passed to `SetFailed` is the
fresh one except for its result, which is what the User Service returned
alongside the error in `getUser`, `listUsers` and `login`, and none when a
binding failed and in the other handlers.  In particular, when `Get`, `List`
or `Login` returns a value `v` together with an error `e`, the writer call
is `SetFailed` with `v` in the envelope and `e` as error, and the envelope
written is the failure with the message of `e` and no payload. -/
theorem envelope_success_or_failure (h : Handler) (g : Binder C E U)
    (u : UserInterface S C E U T) (c : C) (s : S) :
    (∃ ev env,
      writes (run h g u c s).log = [ev] ∧
      (run h g u c s).written = [env] ∧
      ((∃ r, ev = Event.SetSuccess r ∧
          env = { Indicator := Indicator.success, Message := none,
                  Result := r.Result }) ∨
       (∃ r err, ev = Event.SetFailed r err ∧
          env = { Indicator := Indicator.failure,
                  Message := some (GoError.Error err), Result := none } ∧
          r.Indicator = Indicator.unset ∧
          r.Message = none ∧
          r.Result =
            match h with
            | Handler.getUser =>
              match g.ShouldBindUri c with
              | Except.ok idMeta => (u.Get s c idMeta.UserId).1.1.map Payload.user
              | Except.error _ => none
            | Handler.listUsers => (u.List s c).1.1.map Payload.users
            | Handler.login =>
              match g.ShouldBindJSON c with
              | Except.ok user => (u.Login s c user).1.1.map Payload.login
              | Except.error _ => none
            | _ => none))) ∧
    (∀ idMeta v e, h = Handler.getUser →
      g.ShouldBindUri c = Except.ok idMeta →
      (u.Get s c idMeta.UserId).1 = (v, some e) →
      writes (run h g u c s).log =
        [Event.SetFailed
          { Indicator := Indicator.unset, Message := none,
            Result := v.map Payload.user } e] ∧
      (run h g u c s).written =
        [{ Indicator := Indicator.failure, Message := some (GoError.Error e),
           Result := none }]) ∧
    (∀ v e, h = Handler.listUsers →
      (u.List s c).1 = (v, some e) →
      writes (run h g u c s).log =
        [Event.SetFailed
          { Indicator := Indicator.unset, Message := none,
            Result := v.map Payload.users } e] ∧
      (run h g u c s).written =
        [{ Indicator := Indicator.failure, Message := some (GoError.Error e),
           Result := none }]) ∧
    (∀ user v e, h = Handler.login →
      g.ShouldBindJSON c = Except.ok user →
      (u.Login s c user).1 = (v, some e) →
      writes (run h g u c s).log =
        [Event.SetFailed
          { Indicator := Indicator.unset, Message := none,
            Result := v.map Payload.login } e] ∧
      (run h g u c s).written =
        [{ Indicator := Indicator.failure, Message := some (GoError.Error e),
           Result := none }]) := by
  refine ⟨?_, ?_, ?_, ?_⟩
  · cases h <;>
      simp only [run, Handler.handler, createUser, updateUser, deleteUser,
        getUser, listUsers, login, logout, World.record, World.call,
        World.start] <;>
      (repeat' split) <;>
      simp_all [SetFailed, SetSuccess, Event.isWrite, writes, NewResponse,
        and_assoc]
  · rintro idMeta v e rfl hu hg
    simp [run, Handler.handler, getUser, World.record, World.call, World.start,
      SetFailed, Event.isWrite, writes, NewResponse, hu, hg]
  · rintro v e rfl hl
    simp [run, Handler.handler, listUsers, World.record, World.call, World.start,
      SetFailed, Event.isWrite, writes, NewResponse, hl]
  · rintro user v e rfl hj hl
    simp [run, Handler.handler, login, World.record, World.call, World.start,
      SetFailed, Event.isWrite, writes, NewResponse, hj, hl]

/-- Witness of C1 amended: `Get` returns the user "alice" together with the
error "boom"; the only writer call is `SetFailed`, with "alice" in the
envelope handed over, and the envelope written is the failure "boom" with no
payload. -/
theorem envelope_success_or_failure_witness :
    writes (run Handler.getUser
        (stubBinder (Except.ok { UserId := 42 }) (Except.error "no body"))
        (stubService (some "boom") (some "alice") none none) () 0).log =
      [Event.SetFailed
        { Indicator := Indicator.unset, Message := none,
          Result := some (Payload.user "alice") } "boom"] ∧
    (run Handler.getUser
        (stubBinder (Except.ok { UserId := 42 }) (Except.error "no body"))
        (stubService (some "boom") (some "alice") none none) () 0).written =
      [{ Indicator := Indicator.failure, Message := some "boom", Result := none }] :=
  (envelope_success_or_failure Handler.getUser
    (stubBinder (Except.ok { UserId := 42 }) (Except.error "no body"))
    (stubService (some "boom") (some "alice") none none) () 0).2.1
    { UserId := 42 } (some "alice") "boom" rfl rfl rfl

/-- C3: whenever input binding fails, no delegation call occurs and the
handler's outcome is `SetFailed` with the binder's error.  A failing path
binding in `updateUser`, `deleteUser` and `getUser`, and a failing body
binding in `createUser`, `updateUser` (once its path is bound) and `login`,
leave the log without any call of the User Service, leave the state of the
Service untouched, and end in the single writer call `SetFailed` with the
untouched fresh envelope and that error; the envelope written is a failure
with that error's message. -/
theorem binding_failure_skips_delegation (h : Handler) (g : Binder C E U)
    (u : UserInterface S C E U T) (c : C) (s : S) (e : E)
    (hfail :
      match h with
      | Handler.createUser => g.ShouldBindJSON c = Except.error e
      | Handler.login => g.ShouldBindJSON c = Except.error e
      | Handler.updateUser =>
        g.ShouldBindUri c = Except.error e ∨
          ((∃ idMeta, g.ShouldBindUri c = Except.ok idMeta) ∧
            g.ShouldBindJSON c = Except.error e)
      | Handler.deleteUser => g.ShouldBindUri c = Except.error e
      | Handler.getUser => g.ShouldBindUri c = Except.error e
      | Handler.listUsers => False
      | Handler.logout => False) :
    delegations (run h g u c s).log = [] ∧
    (run h g u c s).svc = s ∧
    writes (run h g u c s).log = [Event.SetFailed NewResponse e] ∧
    (run h g u c s).written =
      [{ Indicator := Indicator.failure, Message := some (GoError.Error e),
         Result := none }] := by
  cases h <;> simp only at hfail
  case updateUser =>
    rcases hfail with hu | ⟨⟨idMeta, hu⟩, hj⟩ <;>
      simp [run, Handler.handler, updateUser, World.record, World.call,
        World.start, SetFailed, Event.isWrite, Event.isService, writes,
        delegations, *]
  all_goals
    simp [run, Handler.handler, createUser, deleteUser, getUser, login,
      World.record, World.call, World.start, SetFailed, Event.isWrite,
      Event.isService, writes, delegations, *]

/-- Witness of C3: `PUT /pixiu/users/notanumber`, the path binder fails; the
Service counter stays at 0 and the outcome is `SetFailed` with the binder's
error. -/
theorem binding_failure_skips_delegation_witness :
    delegations (run Handler.updateUser
        (stubBinder (Except.error "userId: not a number") (Except.ok "alice"))
        (stubService none none none none) () 0).log = [] ∧
    (run Handler.updateUser
        (stubBinder (Except.error "userId: not a number") (Except.ok "alice"))
        (stubService none none none none) () 0).svc = 0 ∧
    writes (run Handler.updateUser
        (stubBinder (Except.error "userId: not a number") (Except.ok "alice"))
        (stubService none none none none) () 0).log =
      [Event.SetFailed NewResponse "userId: not a number"] ∧
    (run Handler.updateUser
        (stubBinder (Except.error "userId: not a number") (Except.ok "alice"))
        (stubService none none none none) () 0).written =
      [{ Indicator := Indicator.failure, Message := some "userId: not a number",
         Result := none }] :=
  binding_failure_skips_delegation Handler.updateUser
    (stubBinder (Except.error "userId: not a number") (Except.ok "alice"))
    (stubService none none none none) () 0 "userId: not a number"
    (Or.inl rfl)

/-- C4: for each of the six delegating operations, if all bindings succeed
and the delegated Service call returns an error `e`, the single writer call
of the request is `SetFailed` with exactly `e`; `SetSuccess` is not called,
and the envelope written has the failure indicator and the message of
`e`. -/
theorem delegation_error_surfaced_verbatim (h : Handler) (g : Binder C E U)
    (u : UserInterface S C E U T) (c : C) (s : S) (e : E)
    (hdel :
      match h with
      | Handler.createUser =>
        ∃ user, g.ShouldBindJSON c = Except.ok user ∧ (u.Create s c user).1 = some e
      | Handler.updateUser =>
        ∃ idMeta user, g.ShouldBindUri c = Except.ok idMeta ∧
          g.ShouldBindJSON c = Except.ok user ∧
          (u.Update s c idMeta.UserId user).1 = some e
      | Handler.deleteUser =>
        ∃ idMeta, g.ShouldBindUri c = Except.ok idMeta ∧
          (u.Delete s c idMeta.UserId).1 = some e
      | Handler.getUser =>
        ∃ idMeta, g.ShouldBindUri c = Except.ok idMeta ∧
          (u.Get s c idMeta.UserId).1.2 = some e
      | Handler.listUsers => (u.List s c).1.2 = some e
      | Handler.login =>
        ∃ user, g.ShouldBindJSON c = Except.ok user ∧ (u.Login s c user).1.2 = some e
      | Handler.logout => False) :
    (∃ r, writes (run h g u c s).log = [Event.SetFailed r e]) ∧
    (∀ r, Event.SetSuccess r ∉ (run h g u c s).log) ∧
    ∃ env, (run h g u c s).written = [env] ∧
      env.Indicator = Indicator.failure ∧
      env.Message = some (GoError.Error e) := by
  cases h <;> simp only at hdel
  case createUser =>
    obtain ⟨user, hj, he⟩ := hdel
    simp [run, Handler.handler, createUser, World.record, World.call,
      World.start, SetFailed, Event.isWrite, writes, hj, he]
  case updateUser =>
    obtain ⟨idMeta, user, hu, hj, he⟩ := hdel
    simp [run, Handler.handler, updateUser, World.record, World.call,
      World.start, SetFailed, Event.isWrite, writes, hu, hj, he]
  case deleteUser =>
    obtain ⟨idMeta, hu, he⟩ := hdel
    simp [run, Handler.handler, deleteUser, World.record, World.call,
      World.start, SetFailed, Event.isWrite, writes, hu, he]
  case getUser =>
    obtain ⟨idMeta, hu, he⟩ := hdel
    simp [run, Handler.handler, getUser, World.record, World.call,
      World.start, SetFailed, Event.isWrite, writes, hu, he]
  case listUsers =>
    simp [run, Handler.handler, listUsers, World.record, World.call,
      World.start, SetFailed, Event.isWrite, writes, hdel]
  case login =>
    obtain ⟨user, hj, he⟩ := hdel
    simp [run, Handler.handler, login, World.record, World.call,
      World.start, SetFailed, Event.isWrite, writes, hj, he]

/-- Witness of C4: `Create` fails with "name taken"; the message written is
"name taken". -/
theorem delegation_error_surfaced_verbatim_witness :
    (∃ r, writes (run Handler.createUser
        (stubBinder (Except.error "no id") (Except.ok "alice"))
        (stubService (some "name taken") none none none) () 0).log =
      [Event.SetFailed r "name taken"]) ∧
    (∀ r, Event.SetSuccess r ∉ (run Handler.createUser
        (stubBinder (Except.error "no id") (Except.ok "alice"))
        (stubService (some "name taken") none none none) () 0).log) ∧
    ∃ env, (run Handler.createUser
        (stubBinder (Except.error "no id") (Except.ok "alice"))
        (stubService (some "name taken") none none none) () 0).written = [env] ∧
      env.Indicator = Indicator.failure ∧
      env.Message = some "name taken" :=
  delegation_error_surfaced_verbatim Handler.createUser
    (stubBinder (Except.error "no id") (Except.ok "alice"))
    (stubService (some "name taken") none none none) () 0 "name taken"
    ⟨"alice", rfl, rfl⟩

/-- C5: when all bindings of an operation succeed, the User Service is
invoked exactly once, with exactly the bound inputs, whether the call
succeeds or fails: the Service calls of the log are the single call
`Create(user)`, `Update(userId, user)`, `Delete(userId)`, `Get(userId)`,
`List()` or `Login(user)` of the handler, and the final state of the Service
is the state that one call left.  (`logout`, which binds nothing, makes no
call.) -/
theorem delegates_exactly_once (h : Handler) (g : Binder C E U)
    (u : UserInterface S C E U T) (c : C) (s : S) (idMeta : IdMeta) (user : U)
    (hbind :
      match h with
      | Handler.createUser => g.ShouldBindJSON c = Except.ok user
      | Handler.updateUser =>
        g.ShouldBindUri c = Except.ok idMeta ∧ g.ShouldBindJSON c = Except.ok user
      | Handler.deleteUser => g.ShouldBindUri c = Except.ok idMeta
      | Handler.getUser => g.ShouldBindUri c = Except.ok idMeta
      | Handler.listUsers => True
      | Handler.login => g.ShouldBindJSON c = Except.ok user
      | Handler.logout => True) :
    delegations (run h g u c s).log =
      (match h with
      | Handler.createUser => [Event.Create user]
      | Handler.updateUser => [Event.Update idMeta.UserId user]
      | Handler.deleteUser => [Event.Delete idMeta.UserId]
      | Handler.getUser => [Event.Get idMeta.UserId]
      | Handler.listUsers => [Event.List]
      | Handler.login => [Event.Login user]
      | Handler.logout => []) ∧
    (run h g u c s).svc =
      (match h with
      | Handler.createUser => (u.Create s c user).2
      | Handler.updateUser => (u.Update s c idMeta.UserId user).2
      | Handler.deleteUser => (u.Delete s c idMeta.UserId).2
      | Handler.getUser => (u.Get s c idMeta.UserId).2
      | Handler.listUsers => (u.List s c).2
      | Handler.login => (u.Login s c user).2
      | Handler.logout => s) := by
  cases h <;> simp only at hbind ⊢ <;>
    simp only [run, Handler.handler, createUser, updateUser, deleteUser, getUser,
      listUsers, login, logout, World.record, World.call, World.start, hbind] <;>
    (repeat' split) <;>
    simp [SetFailed, SetSuccess, Event.isService, delegations]

/-- Witness of C5: `PUT /pixiu/users/42` with body "alice" and a failing
`Update`: one call `Update(42, "alice")`, Service counter at 1. -/
theorem delegates_exactly_once_witness :
    delegations (run Handler.updateUser
        (stubBinder (Except.ok { UserId := 42 }) (Except.ok "alice"))
        (stubService (some "conflict") none none none) () 0).log =
      [Event.Update 42 "alice"] ∧
    (run Handler.updateUser
        (stubBinder (Except.ok { UserId := 42 }) (Except.ok "alice"))
        (stubService (some "conflict") none none none) () 0).svc = 1 :=
  delegates_exactly_once Handler.updateUser
    (stubBinder (Except.ok { UserId := 42 }) (Except.ok "alice"))
    (stubService (some "conflict") none none none) () 0 { UserId := 42 } "alice"
    ⟨rfl, rfl⟩

/-- C6: on success of a payload-producing operation the payload is exactly
what the User Service returned.  If `Get`, `List` or `Login` returns the
value `v` without error (after successful bindings), the single writer call
is `SetSuccess` with an envelope whose result is `v`, and the envelope
written is a success carrying `v`: the same user, the same sequence of users
in the same order, the same login result. -/
theorem success_payload_is_service_value (h : Handler) (g : Binder C E U)
    (u : UserInterface S C E U T) (c : C) (s : S) (idMeta : IdMeta) (user : U)
    (v : Option (Payload U T))
    (hok :
      match h with
      | Handler.getUser =>
        g.ShouldBindUri c = Except.ok idMeta ∧
          (u.Get s c idMeta.UserId).1.2 = none ∧
          v = (u.Get s c idMeta.UserId).1.1.map Payload.user
      | Handler.listUsers =>
        (u.List s c).1.2 = none ∧ v = (u.List s c).1.1.map Payload.users
      | Handler.login =>
        g.ShouldBindJSON c = Except.ok user ∧
          (u.Login s c user).1.2 = none ∧
          v = (u.Login s c user).1.1.map Payload.login
      | _ => False) :
    writes (run h g u c s).log =
      [Event.SetSuccess { Indicator := Indicator.unset, Message := none, Result := v }] ∧
    (run h g u c s).written =
      [{ Indicator := Indicator.success, Message := none, Result := v }] := by
  cases h <;> simp only at hok
  case getUser =>
    obtain ⟨hu, he, hv⟩ := hok
    simp [run, Handler.handler, getUser, World.record, World.call, World.start,
      SetSuccess, Event.isWrite, writes, NewResponse, hu, he, hv]
  case listUsers =>
    obtain ⟨he, hv⟩ := hok
    simp [run, Handler.handler, listUsers, World.record, World.call, World.start,
      SetSuccess, Event.isWrite, writes, NewResponse, he, hv]
  case login =>
    obtain ⟨hj, he, hv⟩ := hok
    simp [run, Handler.handler, login, World.record, World.call, World.start,
      SetSuccess, Event.isWrite, writes, NewResponse, hj, he, hv]

/-- Witness of C6: `List` returns "bob", "alice", "carol" without error; the
envelope written carries that sequence in that order. -/
theorem success_payload_is_service_value_witness :
    writes (run Handler.listUsers
        (stubBinder (Except.error "no id") (Except.error "no body"))
        (stubService none none (some ["bob", "alice", "carol"]) none) () 0).log =
      [Event.SetSuccess
        { Indicator := Indicator.unset, Message := none,
          Result := some (Payload.users ["bob", "alice", "carol"]) }] ∧
    (run Handler.listUsers
        (stubBinder (Except.error "no id") (Except.error "no body"))
        (stubService none none (some ["bob", "alice", "carol"]) none) () 0).written =
      [{ Indicator := Indicator.success, Message := none,
         Result := some (Payload.users ["bob", "alice", "carol"]) }] :=
  success_payload_is_service_value Handler.listUsers
    (stubBinder (Except.error "no id") (Except.error "no body"))
    (stubService none none (some ["bob", "alice", "carol"]) none) () 0
    { UserId := 0 } "" (some (Payload.users ["bob", "alice", "carol"]))
    ⟨rfl, rfl⟩

/-- C7: `createUser`, `updateUser` and `deleteUser` never assign the
envelope's result: every writer call of theirs receives the untouched fresh
envelope.  When all bindings succeed and the delegated call returns no
error, the single writer call is `SetSuccess` and the envelope written is a
success with no payload and no error message. -/
theorem mutation_success_has_no_payload (h : Handler) (g : Binder C E U)
    (u : UserInterface S C E U T) (c : C) (s : S)
    (hmut : h = Handler.createUser ∨ h = Handler.updateUser ∨ h = Handler.deleteUser) :
    (∀ ev ∈ (run h g u c s).log, ev.isWrite = true →
      ev = Event.SetSuccess NewResponse ∨ ∃ err, ev = Event.SetFailed NewResponse err) ∧
    (∀ (idMeta : IdMeta) (user : U),
      (match h with
        | Handler.createUser =>
          g.ShouldBindJSON c = Except.ok user ∧ (u.Create s c user).1 = none
        | Handler.updateUser =>
          g.ShouldBindUri c = Except.ok idMeta ∧ g.ShouldBindJSON c = Except.ok user ∧
            (u.Update s c idMeta.UserId user).1 = none
        | Handler.deleteUser =>
          g.ShouldBindUri c = Except.ok idMeta ∧ (u.Delete s c idMeta.UserId).1 = none
        | _ => False) →
      writes (run h g u c s).log = [Event.SetSuccess NewResponse] ∧
      (run h g u c s).written =
        [{ Indicator := Indicator.success, Message := none, Result := none }]) := by
  rcases hmut with rfl | rfl | rfl
  · refine ⟨?_, ?_⟩
    · simp only [run, Handler.handler, createUser, World.record, World.call,
        World.start]
      (repeat' split) <;> simp [SetFailed, SetSuccess, Event.isWrite]
    · rintro idMeta user ⟨hj, he⟩
      simp [run, Handler.handler, createUser, World.record, World.call,
        World.start, SetSuccess, Event.isWrite, writes, NewResponse, hj, he]
  · refine ⟨?_, ?_⟩
    · simp only [run, Handler.handler, updateUser, World.record, World.call,
        World.start]
      (repeat' split) <;> simp [SetFailed, SetSuccess, Event.isWrite]
    · rintro idMeta user ⟨hu, hj, he⟩
      simp [run, Handler.handler, updateUser, World.record, World.call,
        World.start, SetSuccess, Event.isWrite, writes, NewResponse, hu, hj, he]
  · refine ⟨?_, ?_⟩
    · simp only [run, Handler.handler, deleteUser, World.record, World.call,
        World.start]
      (repeat' split) <;> simp [SetFailed, SetSuccess, Event.isWrite]
    · rintro idMeta user ⟨hu, he⟩
      simp [run, Handler.handler, deleteUser, World.record, World.call,
        World.start, SetSuccess, Event.isWrite, writes, NewResponse, hu, he]

/-- Witness of C7: `POST /pixiu/users/` with body "alice" and `Create`
succeeding: the envelope written is a success, result null. -/
theorem mutation_success_has_no_payload_witness :
    writes (run Handler.createUser
        (stubBinder (Except.error "no id") (Except.ok "alice"))
        (stubService none none none none) () 0).log =
      [Event.SetSuccess NewResponse] ∧
    (run Handler.createUser
        (stubBinder (Except.error "no id") (Except.ok "alice"))
        (stubService none none none none) () 0).written =
      [{ Indicator := Indicator.success, Message := none, Result := none }] :=
  (mutation_success_has_no_payload Handler.createUser
    (stubBinder (Except.error "no id") (Except.ok "alice"))
    (stubService none none none none) () 0 (Or.inl rfl)).2
    { UserId := 0 } "alice" ⟨rfl, rfl⟩

/-- C9: `logout` always emits a success envelope with no payload.  On every
request, with every binder and every User Service, its whole effect is one
call of `SetSuccess` with the fresh envelope: no binder call, no Service
call, the state of the Service untouched, one success envelope written with
no payload and no message. -/
theorem logout_always_succeeds (g : Binder C E U) (u : UserInterface S C E U T)
    (c : C) (s : S) :
    (run Handler.logout g u c s).log = [Event.SetSuccess NewResponse] ∧
    (run Handler.logout g u c s).svc = s ∧
    (run Handler.logout g u c s).written =
      [{ Indicator := Indicator.success, Message := none, Result := none }] := by
  simp [run, Handler.handler, logout, SetSuccess, World.start, NewResponse]

/-- C10: binding in `updateUser` is short-circuit, path first.  The first
effect of the request is the path binding; if it fails, the whole log is
that binding followed by `SetFailed` with the path-binding error, so the
body is never bound, whatever the body is; a body binding appears in the log
only when the path binding succeeded, and its error is then the one
reported; in every case exactly one writer call is made. -/
theorem updateUser_binds_path_first (g : Binder C E U)
    (u : UserInterface S C E U T) (c : C) (s : S) :
    (run Handler.updateUser g u c s).log.head? =
      some (Event.ShouldBindUri (g.ShouldBindUri c)) ∧
    (∀ e, g.ShouldBindUri c = Except.error e →
      (run Handler.updateUser g u c s).log =
        [Event.ShouldBindUri (Except.error e), Event.SetFailed NewResponse e]) ∧
    (∀ res, Event.ShouldBindJSON res ∈ (run Handler.updateUser g u c s).log →
      ∃ idMeta, g.ShouldBindUri c = Except.ok idMeta) ∧
    (∀ idMeta e, g.ShouldBindUri c = Except.ok idMeta →
      g.ShouldBindJSON c = Except.error e →
      (run Handler.updateUser g u c s).log =
        [Event.ShouldBindUri (Except.ok idMeta),
         Event.ShouldBindJSON (Except.error e), Event.SetFailed NewResponse e]) ∧
    (writes (run Handler.updateUser g u c s).log).length = 1 := by
  refine ⟨?_, ?_, ?_, ?_, ?_⟩
  · simp only [run, Handler.handler, updateUser, World.record, World.call,
      World.start]
    (repeat' split) <;> simp [SetFailed, SetSuccess]
  · intro e hu
    simp [run, Handler.handler, updateUser, World.record, World.start, SetFailed, hu]
  · intro res
    simp only [run, Handler.handler, updateUser, World.record, World.call,
      World.start]
    (repeat' split) <;> simp_all [SetFailed, SetSuccess]
  · intro idMeta e hu hj
    simp [run, Handler.handler, updateUser, World.record, World.start, SetFailed,
      hu, hj]
  · simp only [run, Handler.handler, updateUser, World.record, World.call,
      World.start]
    (repeat' split) <;> simp [SetFailed, SetSuccess, Event.isWrite, writes]

/-- Witness of C10: path and body both invalid; only the path-binding error
is reported and the log holds no body binding. -/
theorem updateUser_binds_path_first_witness :
    (run Handler.updateUser
        (stubBinder (Except.error "bad userId") (Except.error "bad body"))
        (stubService none none none none) () 0).log =
      [Event.ShouldBindUri (Except.error "bad userId"),
       Event.SetFailed NewResponse "bad userId"] :=
  (updateUser_binds_path_first
    (stubBinder (Except.error "bad userId") (Except.error "bad body"))
    (stubService none none none none) () 0).2.1 "bad userId" rfl

end Theorems

end Pixiu
